import Mathlib

/-!
# Trip Merge & Route Sequencing Engine — verification development

Shallow embedding of the trip-merge core of the TRIPEXL server:

* `src/utils/geo-utils.ts` — `calculateRouteWithStops` (the distance
  functions there use floating-point trigonometry; throughout this
  development the great-circle distance `haversineDistance` /
  `calculateDistance` is abstracted as a parameter `dist : Coord → Coord → ℚ`,
  with nonnegativity assumed explicitly where a statement needs it).
* `src/services/trip-merge-service.ts` — the eligibility checks
  (`isPickupNearby`, …, `checkMergeEligibility`) and the recommendation
  scorer (`getMergeRecommendations`).  Configuration reads
  (`getConfigValue`) are modelled by a `MergeConfig` record passed in.
* `src/routes/trip-merge-routes.ts` — `optimizeRoute` (the Google
  Directions call is modelled by an `Option ApiResponse` parameter:
  `none` covers a missing API key, a non-OK status, an empty route list
  and network errors), the `/api/bookings/merge` transaction and the
  `/api/bookings/:id/unmerge` transaction.  Storage is a list of booking
  rows; a drizzle `update ... where id = ...` is a pointwise map over the
  rows, and a transaction either returns the new storage or leaves the
  old one untouched.

JavaScript `Date` values are modelled as integer epoch milliseconds and
JavaScript numbers as rationals.
-/

namespace TripexlMerge

/-- A lat/lng coordinate pair (`{lat, lng}` objects in the source). -/
structure Coord where
  lat : ℚ
  lng : ℚ
deriving DecidableEq, Repr

/-- A booking location: coordinates plus an optional zone
(`pickup_location` / `dropoff_location` payloads). -/
structure Location where
  coordinates : Coord
  zone : Option String
deriving DecidableEq, Repr

/-- Great-circle distance is kept abstract: the source computes it with
the haversine formula over floats (`GeoUtils.calculateDistance`). -/
abbrev Dist := Coord → Coord → ℚ

/-- One waypoint of `optimizeRoute` in trip-merge-routes.ts.  The stop
kind is a free string in the source (`'pickup'` / `'dropoff'`), kept as a
string here. -/
structure Waypoint where
  location : Coord
  stopType : String
  bookingId : ℕ
deriving DecidableEq, Repr

/-- The value returned by `optimizeRoute` (trip-merge-routes.ts) when the
optimization succeeds; stored on the parent as `optimized_route`. -/
structure OptimizedRoute where
  waypoints : List Waypoint
  waypointOrder : List ℕ
  distance : ℚ
  duration : ℚ
  polyline : String
deriving DecidableEq, Repr

/-- A vehicle row, as read through `storage.getVehicle`. -/
structure Vehicle where
  vehicle_type : String
  capacity : ℕ
deriving DecidableEq, Repr

/-- A booking row (`bookings` table).  Only the columns read or written
by the embedded code are modelled.  `estimated_distance` /
`estimated_duration` are plain rationals (their nullability in the DB
only affects the advisory `savings` numbers, which no claim touches). -/
structure Booking where
  id : ℕ
  status : String
  booking_type : String
  priority : String
  pickup_location : Location
  dropoff_location : Location
  pickup_time : ℤ
  dropoff_time : Option ℤ
  passenger_count : Option ℕ
  vehicle_type : Option String
  vehicle_id : Option ℕ
  assigned_vehicle_id : Option ℕ
  is_merged : Bool
  has_merged_trips : Bool
  is_parent_booking : Bool
  merged_with_booking_id : Option ℕ
  parent_booking_id : Option ℕ
  merged_booking_ids : Option (List String)
  trip_id : Option String
  pickup_sequence : Option ℤ
  dropoff_sequence : Option ℤ
  route_sequence : Option ℤ
  route_polyline : Option String
  optimized_route : Option OptimizedRoute
  modification_notes : Option String
  last_modified_by : String
  updated_at : ℤ
  estimated_distance : ℚ
  estimated_duration : ℚ
  reference_no : String
deriving DecidableEq, Repr

/-- The configuration values consumed through `getConfigValue`
(config-service.ts `DEFAULT_CONFIG` keys with the `TRIP_MERGE_` prefix). -/
structure MergeConfig where
  pickupDistanceKm : ℚ
  dropoffDistanceKm : ℚ
  sameZoneRequired : Bool
  pickupTimeWindowMinutes : ℚ
  dropoffTimeWindowMinutes : ℚ
  maxPickupGapMinutes : ℚ
  maxTripDurationMinutes : ℚ
  sameVehicleTypeRequired : Bool
  sameBookingTypeRequired : Bool
  samePriorityRequired : Bool
  routeDeviationToleranceKm : ℚ
deriving DecidableEq, Repr

/-- Result of `calculateRouteWithStops` (geo-utils.ts): the route echo
plus the stubbed totals.  `α` is whatever the caller passed as points
(the trip-merge-service call site passes a single array argument, so the
`destination` parameter is `none` there). -/
structure StubRoute (α : Type) where
  route : List (Option α)
  distance : ℚ
  duration : ℚ

/-- geo-utils.ts `calculateRouteWithStops(origin, destination, stops = [])`:
returns the point list and constant `distance: 0, duration: 0`. -/
def calculateRouteWithStops {α : Type} (origin : α) (destination : Option α)
    (stops : List α) : StubRoute α :=
  { route := [some origin] ++ stops.map some ++ [destination]
    distance := 0
    duration := 0 }

/-- The `{distance, duration}` view of a route object, as read by
`isRouteDeviationAllowed` and `isDurationWithinLimit`. -/
structure RouteLike where
  distance : ℚ
  duration : ℚ
deriving DecidableEq, Repr

/-- trip-merge-service.ts `isPickupNearby`. -/
def isPickupNearby (dist : Dist) (cfg : MergeConfig) (a b : Location) : Bool :=
  if dist a.coordinates b.coordinates > cfg.pickupDistanceKm then false
  else if cfg.sameZoneRequired && (a.zone != b.zone) then false
  else true

/-- trip-merge-service.ts `isDropoffNearby`. -/
def isDropoffNearby (dist : Dist) (cfg : MergeConfig) (a b : Location) : Bool :=
  if dist a.coordinates b.coordinates > cfg.dropoffDistanceKm then false
  else if cfg.sameZoneRequired && (a.zone != b.zone) then false
  else true

/-- JavaScript `Math.abs`, written so that the kernel can evaluate it on
rationals (it agrees with `|·|`, see `jsAbs_eq_abs`). -/
def jsAbs (q : ℚ) : ℚ :=
  if q < 0 then -q else q

/-- trip-merge-service.ts `isTimeCompatible`; times in epoch ms. -/
def isTimeCompatible (cfg : MergeConfig) (timeA timeB : ℤ × ℤ) : Bool :=
  if jsAbs ((timeA.1 - timeB.1 : ℤ) : ℚ) > cfg.pickupTimeWindowMinutes * 60 * 1000 then false
  else if jsAbs ((timeA.2 - timeB.2 : ℤ) : ℚ) > cfg.dropoffTimeWindowMinutes * 60 * 1000 then false
  else true

/-- trip-merge-service.ts `isVehicleCompatible`.  Every call site passes
a nonempty booking list, so the `[]` case (a crash in the source) is
arbitrary.  The truthiness test `bookings[0].vehicle_type` is modelled as
`isSome`. -/
def isVehicleCompatible (cfg : MergeConfig) (vehicle : Vehicle)
    (bookings : List Booking) : Bool :=
  match bookings with
  | [] => true
  | b0 :: _ =>
    if cfg.sameVehicleTypeRequired &&
        bookings.any (fun b => b.vehicle_type != b0.vehicle_type) then false
    else if (match b0.vehicle_type with
             | some vt => vehicle.vehicle_type != vt
             | none => false) then false
    else if vehicle.capacity <
        (bookings.map (fun b => b.passenger_count.getD 1)).sum then false
    else true

/-- trip-merge-service.ts `isBookingTypeCompatible`. -/
def isBookingTypeCompatible (cfg : MergeConfig) (bookings : List Booking) : Bool :=
  if !cfg.sameBookingTypeRequired then true
  else
    match bookings with
    | [] => true
    | b0 :: _ => bookings.all (fun b => b.booking_type == b0.booking_type)

/-- trip-merge-service.ts `isPriorityMatchSafe`. -/
def isPriorityMatchSafe (cfg : MergeConfig) (bookings : List Booking) : Bool :=
  if !cfg.samePriorityRequired then true
  else
    match bookings with
    | [] => true
    | b0 :: _ => bookings.all (fun b => b.priority == b0.priority)

/-- trip-merge-service.ts `isRouteDeviationAllowed`. -/
def isRouteDeviationAllowed (cfg : MergeConfig)
    (originalRoute mergedRoute : RouteLike) : Bool :=
  jsAbs (mergedRoute.distance - originalRoute.distance) ≤ cfg.routeDeviationToleranceKm

/-- Consecutive-gap check over an ascending list of pickup times. -/
def gapsWithin (maxGapMs : ℚ) : List ℤ → Bool
  | [] => true
  | [_] => true
  | a :: b :: rest => ((b - a : ℤ) : ℚ) ≤ maxGapMs && gapsWithin maxGapMs (b :: rest)

/-- trip-merge-service.ts `isPickupGapAcceptable`: sort the pickup times
ascending, then bound each consecutive gap. -/
def isPickupGapAcceptable (cfg : MergeConfig) (bookings : List Booking) : Bool :=
  gapsWithin (cfg.maxPickupGapMinutes * 60 * 1000)
    (List.insertionSort (fun a b => a ≤ b) (bookings.map (fun b => b.pickup_time)))

/-- trip-merge-service.ts `isDurationWithinLimit`. -/
def isDurationWithinLimit (cfg : MergeConfig) (mergedRoute : RouteLike) : Bool :=
  mergedRoute.duration ≤ cfg.maxTripDurationMinutes * 60 * 1000

/-- trip-merge-service.ts `isZoneAllowed` (constantly true in the source). -/
def isZoneAllowed (_zones : List String) : Bool :=
  true

/-- The `{pickup, dropoff}` time pair built inside `checkMergeEligibility`:
the dropoff time falls back to pickup time + one hour (3600000 ms). -/
def timePairOf (b : Booking) : ℤ × ℤ :=
  (b.pickup_time, b.dropoff_time.getD (b.pickup_time + 3600000))

/-- The `originalRoute` object built inside `checkMergeEligibility`:
direct pickup→dropoff distance of the base booking, 30 minutes in ms. -/
def originalRouteOf (dist : Dist) (b : Booking) : RouteLike :=
  { distance := dist b.pickup_location.coordinates b.dropoff_location.coordinates
    duration := 30 * 60 * 1000 }

/-- The four-stop list passed to `calculateRouteWithStops` inside
`checkMergeEligibility` (as a single array argument, so it lands in the
`origin` parameter and `destination` stays undefined). -/
def mergedStopsOf (b c : Booking) : List Coord :=
  [b.pickup_location.coordinates, c.pickup_location.coordinates,
   b.dropoff_location.coordinates, c.dropoff_location.coordinates]

/-- The `mergedRoute` object built inside `checkMergeEligibility`. -/
def mergedRouteOf (b c : Booking) : RouteLike :=
  let r := calculateRouteWithStops (mergedStopsOf b c) none []
  { distance := r.distance, duration := r.duration }

/-- The zone list passed to `isZoneAllowed` inside `checkMergeEligibility`. -/
def zoneArgsOf (b c : Booking) : List String :=
  [b.pickup_location.zone.getD "", c.pickup_location.zone.getD "",
   b.dropoff_location.zone.getD "", c.dropoff_location.zone.getD ""]

/-- The checkpoints of `checkMergeEligibility` (trip-merge-service.ts),
one constructor per `continue`-guard, in no particular order. -/
inductive EligibilityCheck
  | selfMatch
  | pickupProximity
  | dropoffProximity
  | timeCompatibility
  | typeCompatibility
  | priorityCompatibility
  | vehicleCompatibility
  | routeDeviation
  | pickupGap
  | tripDuration
  | zoneRestriction
deriving DecidableEq, Repr

/-- One iteration of the `checkMergeEligibility` candidate loop
(trip-merge-service.ts lines 221–315), returning the guard that fired
(`some check`) or `none` when the candidate is eligible.  `getVehicle`
models `storage.getVehicle`. -/
def evalCandidate (dist : Dist) (cfg : MergeConfig)
    (getVehicle : ℕ → Option Vehicle) (booking candidate : Booking) :
    Option EligibilityCheck :=
  if booking.id = candidate.id then some .selfMatch
  else if !isPickupNearby dist cfg booking.pickup_location candidate.pickup_location then
    some .pickupProximity
  else if !isDropoffNearby dist cfg booking.dropoff_location candidate.dropoff_location then
    some .dropoffProximity
  else if !isTimeCompatible cfg (timePairOf booking) (timePairOf candidate) then
    some .timeCompatibility
  else if !isBookingTypeCompatible cfg [booking, candidate] then
    some .typeCompatibility
  else if !isPriorityMatchSafe cfg [booking, candidate] then
    some .priorityCompatibility
  else if (match candidate.vehicle_id.bind getVehicle with
           | some v => !isVehicleCompatible cfg v [booking, candidate]
           | none => false) then
    some .vehicleCompatibility
  else if !isRouteDeviationAllowed cfg (originalRouteOf dist booking)
      (mergedRouteOf booking candidate) then
    some .routeDeviation
  else if !isPickupGapAcceptable cfg [booking, candidate] then
    some .pickupGap
  else if !isDurationWithinLimit cfg (mergedRouteOf booking candidate) then
    some .tripDuration
  else if !isZoneAllowed (zoneArgsOf booking candidate) then
    some .zoneRestriction
  else none

/-- trip-merge-service.ts `checkMergeEligibility`: keep the candidates
for which no guard fires, preserving candidate order. -/
def checkMergeEligibility (dist : Dist) (cfg : MergeConfig)
    (getVehicle : ℕ → Option Vehicle) (booking : Booking)
    (candidateBookings : List Booking) : List Booking :=
  candidateBookings.filter (fun c => evalCandidate dist cfg getVehicle booking c = none)

/-- Whether one named checkpoint passes on its own, with the same inputs
the evaluator feeds it. -/
def checkPasses (dist : Dist) (cfg : MergeConfig)
    (getVehicle : ℕ → Option Vehicle) (booking candidate : Booking) :
    EligibilityCheck → Bool
  | .selfMatch => booking.id != candidate.id
  | .pickupProximity => isPickupNearby dist cfg booking.pickup_location candidate.pickup_location
  | .dropoffProximity => isDropoffNearby dist cfg booking.dropoff_location candidate.dropoff_location
  | .timeCompatibility => isTimeCompatible cfg (timePairOf booking) (timePairOf candidate)
  | .typeCompatibility => isBookingTypeCompatible cfg [booking, candidate]
  | .priorityCompatibility => isPriorityMatchSafe cfg [booking, candidate]
  | .vehicleCompatibility =>
      match candidate.vehicle_id.bind getVehicle with
      | some v => isVehicleCompatible cfg v [booking, candidate]
      | none => true
  | .routeDeviation =>
      isRouteDeviationAllowed cfg (originalRouteOf dist booking) (mergedRouteOf booking candidate)
  | .pickupGap => isPickupGapAcceptable cfg [booking, candidate]
  | .tripDuration => isDurationWithinLimit cfg (mergedRouteOf booking candidate)
  | .zoneRestriction => isZoneAllowed (zoneArgsOf booking candidate)

/-- The order in which `checkMergeEligibility` actually runs its guards. -/
def serviceCheckOrder : List EligibilityCheck :=
  [.selfMatch, .pickupProximity, .dropoffProximity, .timeCompatibility,
   .typeCompatibility, .priorityCompatibility, .vehicleCompatibility,
   .routeDeviation, .pickupGap, .tripDuration, .zoneRestriction]

/-- JavaScript `Math.round`: floor of x + 1/2. -/
def jsRound (q : ℚ) : ℤ :=
  ⌊q + 1 / 2⌋

/-- The nested `routeDetails` object of a recommendation. -/
structure RecRouteDetails where
  totalDistance : ℚ
  totalDuration : ℚ
deriving DecidableEq, Repr

/-- The nested `savings` object of a recommendation. -/
structure RecSavings where
  distanceSaved : ℚ
  timeSaved : ℚ
deriving DecidableEq, Repr

/-- One entry of the `getMergeRecommendations` result. -/
structure Recommendation where
  tripId : ℕ
  tripReference : String
  compatibilityScore : ℤ
  pickupDistanceKm : ℚ
  dropoffDistanceKm : ℚ
  routeDetails : RecRouteDetails
  savings : RecSavings
deriving DecidableEq, Repr

/-- The four potential stops built inside `getMergeRecommendations`. -/
def potentialStopsOf (booking trip : Booking) : List Coord :=
  [trip.pickup_location.coordinates, booking.pickup_location.coordinates,
   trip.dropoff_location.coordinates, booking.dropoff_location.coordinates]

/-- One iteration of the `getMergeRecommendations` trip loop
(trip-merge-service.ts lines 729–837): `none` when the trip is skipped,
`some rec` when a recommendation is pushed.  `childrenOf` models
`storage.getChildBookings`. -/
def recommendationFor (dist : Dist) (cfg : MergeConfig)
    (childrenOf : ℕ → List Booking) (booking trip : Booking) :
    Option Recommendation :=
  if trip.status = "Completed" then none
  else
    let allTripBookings := trip :: childrenOf trip.id
    if !isPickupNearby dist cfg booking.pickup_location trip.pickup_location then none
    else if !isDropoffNearby dist cfg booking.dropoff_location trip.dropoff_location then none
    else
      let isTypeCompat := isBookingTypeCompatible cfg (booking :: allTripBookings)
      if !isTypeCompat then none
      else
        let stub := calculateRouteWithStops (potentialStopsOf booking trip) none []
        let mergedRoute : RouteLike := { distance := stub.distance, duration := stub.duration }
        if !isDurationWithinLimit cfg mergedRoute then none
        else
          let pickupDistanceKm := dist booking.pickup_location.coordinates
            trip.pickup_location.coordinates
          let dropoffDistanceKm := dist booking.dropoff_location.coordinates
            trip.dropoff_location.coordinates
          let maxDistanceKm := cfg.pickupDistanceKm
          let pickupScore := max 0 (100 - pickupDistanceKm / maxDistanceKm * 100)
          let dropoffScore := max 0 (100 - dropoffDistanceKm / maxDistanceKm * 100)
          let typeScore : ℚ := if isTypeCompat then 100 else 0
          let compatibilityScore :=
            jsRound (pickupScore * (4 / 10) + dropoffScore * (4 / 10) + typeScore * (2 / 10))
          if 50 ≤ compatibilityScore then
            some
              { tripId := trip.id
                tripReference := trip.reference_no
                compatibilityScore := compatibilityScore
                pickupDistanceKm := pickupDistanceKm
                dropoffDistanceKm := dropoffDistanceKm
                routeDetails :=
                  { totalDistance := mergedRoute.distance
                    totalDuration := mergedRoute.duration / 60 }
                savings :=
                  { distanceSaved := booking.estimated_distance -
                      (mergedRoute.distance - trip.estimated_distance)
                    timeSaved := booking.estimated_duration -
                      ((mergedRoute.duration - trip.estimated_duration) / 60) } }
          else none

/-- Descending order on compatibility scores (`(a, b) => b.compatibilityScore
- a.compatibilityScore`). -/
def scoreGE (a b : Recommendation) : Prop :=
  b.compatibilityScore ≤ a.compatibilityScore

instance : DecidableRel scoreGE := fun a b =>
  inferInstanceAs (Decidable (b.compatibilityScore ≤ a.compatibilityScore))

instance : IsTotal Recommendation scoreGE :=
  ⟨fun a b => (le_total b.compatibilityScore a.compatibilityScore).imp id id⟩

instance : IsTrans Recommendation scoreGE :=
  ⟨fun _ _ _ h1 h2 => le_trans h2 h1⟩

/-- trip-merge-service.ts `getMergeRecommendations`.  `bk` is the result
of the `storage.getBooking` lookup (`none` means not found, which the
surrounding try/catch turns into `[]`); `activeTrips` models
`storage.getActiveTrips`. -/
def getMergeRecommendations (dist : Dist) (cfg : MergeConfig)
    (childrenOf : ℕ → List Booking) (bk : Option Booking)
    (activeTrips : List Booking) : List Recommendation :=
  match bk with
  | none => []
  | some booking =>
    if booking.status ≠ "Approved" then []
    else
      List.insertionSort scoreGE
        (activeTrips.filterMap (recommendationFor dist cfg childrenOf booking))

/-- Modelled from the spec sentence backing claim C8 (the composite-score
formula in its own words): pickupScore = max(0, 100 − pickupKm/maxThreshold×100),
dropoffScore analogously, typeScore = 100 when type-compatible else 0,
composite = round(0.4·pickup + 0.4·dropoff + 0.2·type). -/
def specCompositeScore (dist : Dist) (cfg : MergeConfig)
    (childrenOf : ℕ → List Booking) (booking trip : Booking) : ℤ :=
  let pickupKm := dist booking.pickup_location.coordinates trip.pickup_location.coordinates
  let dropoffKm := dist booking.dropoff_location.coordinates trip.dropoff_location.coordinates
  let pickupScore := max 0 (100 - pickupKm / cfg.pickupDistanceKm * 100)
  let dropoffScore := max 0 (100 - dropoffKm / cfg.pickupDistanceKm * 100)
  let typeScore : ℚ :=
    if isBookingTypeCompatible cfg (booking :: trip :: childrenOf trip.id) then 100 else 0
  jsRound ((4 / 10) * pickupScore + (4 / 10) * dropoffScore + (2 / 10) * typeScore)

/-- One leg of the Google Directions response (meters / seconds). -/
structure ApiLeg where
  distanceMeters : ℚ
  durationSeconds : ℚ
deriving DecidableEq, Repr

/-- A usable (`status: OK`, nonempty `routes`) Directions response, as
read by `optimizeRoute`. -/
structure ApiResponse where
  waypoint_order : List ℕ
  legs : List ApiLeg
  overview_polyline : String
deriving DecidableEq, Repr

/-- A `{location, bookingId}` pickup or dropoff point passed into
`optimizeRoute`. -/
structure BookingPoint where
  location : Coord
  bookingId : ℕ
deriving DecidableEq, Repr

/-- The waypoint array of `optimizeRoute`: all pickups first, then all
dropoffs, in submission order. -/
def buildWaypoints (pickupPoints dropoffPoints : List BookingPoint) : List Waypoint :=
  pickupPoints.map (fun p => { location := p.location, stopType := "pickup", bookingId := p.bookingId })
    ++ dropoffPoints.map (fun p => { location := p.location, stopType := "dropoff", bookingId := p.bookingId })

/-- The `sequenceMap` entry for one booking after replaying the
optimizer's `waypoint_order` (`forEach` over the order with its position
as sequence index; later matches overwrite earlier ones, and `none`
stands for the `Infinity` initial value). -/
def optSeqIndices (waypoints : List Waypoint) (order : List ℕ) (bid : ℕ) :
    Option ℕ × Option ℕ :=
  order.enum.foldl
    (fun acc pair =>
      match waypoints.get? pair.2 with
      | some w =>
        if w.bookingId = bid then
          if w.stopType = "pickup" then (some pair.1, acc.2) else (acc.1, some pair.1)
        else acc
      | none => acc)
    (none, none)

/-- The precedence test of `optimizeRoute`: `pickupIndex > dropoffIndex`
under JavaScript `Infinity` arithmetic (`none` = Infinity). -/
def indexViolation : Option ℕ × Option ℕ → Bool
  | (some p, some d) => d < p
  | (none, some _) => true
  | (_, none) => false

/-- Whether `optimizeRoute` discards the optimizer's order (some booking
in the sequence map has its pickup after its dropoff). -/
def requiresAdjustment (waypoints : List Waypoint) (order : List ℕ) : Bool :=
  waypoints.any (fun w => indexViolation (optSeqIndices waypoints order w.bookingId))

/-- The local repair heuristic of `optimizeRoute`: pickups sorted by
distance from the start location ascending, then for each pickup (in
that order) its matching dropoff, when it exists.  The JavaScript sort
is stable on ties; `insertionSort` with `≤` may reorder equal-distance
pickups, which no claim distinguishes. -/
def repairWaypoints (dist : Dist) (startLocation : Coord)
    (waypoints : List Waypoint) : List Waypoint :=
  let sortedPickups :=
    List.insertionSort
      (fun a b => dist startLocation a.location ≤ dist startLocation b.location)
      (waypoints.filter (fun w => w.stopType = "pickup"))
  let dropoffs := waypoints.filter (fun w => w.stopType = "dropoff")
  sortedPickups ++
    sortedPickups.filterMap (fun p => dropoffs.find? (fun d => d.bookingId = p.bookingId))

/-- trip-merge-routes.ts `optimizeRoute`.  `resp = none` models every
path that returns `null` before the reordering work (missing API key,
HTTP failure, non-OK status, empty route list); an out-of-range index in
`waypoint_order` would throw inside the `forEach` and be converted to
`null` by the surrounding catch, hence the `all` guard. -/
def optimizeRoute (dist : Dist) (pickupPoints dropoffPoints : List BookingPoint)
    (startLocation : Coord) (resp : Option ApiResponse) : Option OptimizedRoute :=
  let waypoints := buildWaypoints pickupPoints dropoffPoints
  if waypoints.length < 1 then none
  else
    match dropoffPoints.getLast? with
    | none => none
    | some _ =>
      match resp with
      | none => none
      | some r =>
        if !r.waypoint_order.all (fun i => i < waypoints.length) then none
        else
          let totalDistance := (r.legs.map (fun l => l.distanceMeters)).sum / 1000
          let totalDuration := (r.legs.map (fun l => l.durationSeconds)).sum / 60
          if requiresAdjustment waypoints r.waypoint_order then
            let reordered := repairWaypoints dist startLocation waypoints
            some
              { waypoints := reordered
                waypointOrder := List.range reordered.length
                distance := totalDistance
                duration := totalDuration
                polyline := r.overview_polyline }
          else
            some
              { waypoints := r.waypoint_order.filterMap waypoints.get?
                waypointOrder := r.waypoint_order
                distance := totalDistance
                duration := totalDuration
                polyline := r.overview_polyline }

/-- Storage: the rows of the `bookings` table. -/
abbrev Storage := List Booking

/-- `select ... where id = ...` (first matching row, like destructuring
`const [b] = await tx.select()...`). -/
def lookup (st : Storage) (id : ℕ) : Option Booking :=
  st.find? (fun b => b.id = id)

/-- `update bookings set ... where id = ...`: apply `f` to every row
with the given id. -/
def updateById (st : Storage) (id : ℕ) (f : Booking → Booking) : Storage :=
  st.map (fun b => if b.id = id then f b else b)

/-- The first precondition violation among the child bookings, in list
order (merge route lines 418–431). -/
inductive ChildIssue
  | notFound (id : ℕ)
  | alreadyMerged (id : ℕ)
deriving DecidableEq, Repr

/-- The error message thrown for a child precondition violation. -/
def childIssueMessage : ChildIssue → String
  | .notFound cid => "Child booking with id " ++ toString cid ++ " not found"
  | .alreadyMerged cid => "Child booking with id " ++ toString cid ++ " is already merged"

/-- The offending booking id of a child precondition violation. -/
def childIssueId : ChildIssue → ℕ
  | .notFound cid => cid
  | .alreadyMerged cid => cid

/-- Scan the child ids in order and report the first one that is missing
or already merged. -/
def firstBadChild (st : Storage) : List ℕ → Option ChildIssue
  | [] => none
  | cid :: rest =>
    match lookup st cid with
    | none => some (.notFound cid)
    | some cb => if cb.is_merged then some (.alreadyMerged cid) else firstBadChild st rest

/-- The per-booking `{pickupSequence, dropoffSequence}` entry derived
from an optimized waypoint list (merge route lines 496–513): the index
of the booking's pickup / dropoff waypoint, `-1` when absent, later
occurrences overwriting earlier ones. -/
def seqFor (waypoints : List Waypoint) (bid : ℕ) : ℤ × ℤ :=
  waypoints.enum.foldl
    (fun acc pair =>
      if pair.2.bookingId = bid then
        if pair.2.stopType = "pickup" then ((pair.1 : ℤ), acc.2) else (acc.1, (pair.1 : ℤ))
      else acc)
    (-1, -1)

/-- The key set of the sequence map, in first-occurrence order (a
JavaScript `Map` iterates keys in insertion order). -/
def seqIds (waypoints : List Waypoint) : List ℕ :=
  waypoints.foldl
    (fun acc w => if w.bookingId ∈ acc then acc else acc ++ [w.bookingId])
    []

/-- The per-booking sequence updates issued after a successful
optimization (merge route lines 515–527). -/
def applySequenceUpdates (st : Storage) (waypoints : List Waypoint) : Storage :=
  (seqIds waypoints).foldl
    (fun s bid =>
      updateById s bid
        (fun b =>
          { b with
            pickup_sequence := some (seqFor waypoints bid).1
            dropoff_sequence := some (seqFor waypoints bid).2 }))
    st

/-- The fallback sequence updates when optimization returned null (merge
route lines 528–540): member `i` of `parentId :: childIds` gets
pickup `i` and dropoff `length*2 - i - 1`. -/
def applyFallbackSequences (st : Storage) (allBookingIds : List ℕ) : Storage :=
  allBookingIds.enum.foldl
    (fun s pair =>
      updateById s pair.2
        (fun b =>
          { b with
            pickup_sequence := some (pair.1 : ℤ)
            dropoff_sequence :=
              some ((allBookingIds.length : ℤ) * 2 - (pair.1 : ℤ) - 1) }))
    st

/-- The placeholder vehicle location used when the parent has an
assigned vehicle (merge route line 462). -/
def placeholderVehicleLocation : Coord :=
  { lat := 25276987 / 1000000, lng := 55296249 / 1000000 }

/-- The body of the `/api/bookings/merge` transaction (trip-merge-routes.ts
lines 402–566).  `tripId` stands for the date-stamped `generateTripId()`
value and `resp` for the Google Directions exchange inside
`optimizeRoute`.  Throwing is returning `.error`; all precondition reads
happen before the first update. -/
def mergeTx (dist : Dist) (st : Storage) (parentBookingId : ℕ)
    (childBookingIds : List ℕ) (resp : Option ApiResponse) (tripId : String) :
    Except String Storage :=
  match lookup st parentBookingId with
  | none => .error ("Parent booking not found")
  | some parentBooking =>
    if parentBooking.is_merged then .error ("Cannot use a merged booking as a parent")
    else
      match firstBadChild st childBookingIds with
      | some issue => .error (childIssueMessage issue)
      | none =>
        let allBookings := parentBooking :: childBookingIds.filterMap (lookup st)
        let pickupPoints := allBookings.map
          (fun b => { location := b.pickup_location.coordinates, bookingId := b.id : BookingPoint })
        let dropoffPoints := allBookings.map
          (fun b => { location := b.dropoff_location.coordinates, bookingId := b.id : BookingPoint })
        let startLocation :=
          if parentBooking.assigned_vehicle_id.isSome then placeholderVehicleLocation
          else parentBooking.pickup_location.coordinates
        let optimizedRoute := optimizeRoute dist pickupPoints dropoffPoints startLocation resp
        let st1 := updateById st parentBookingId
          (fun b =>
            { b with
              has_merged_trips := true
              merged_booking_ids := some (childBookingIds.map toString)
              status := "confirmed"
              trip_id := some tripId
              optimized_route := optimizedRoute })
        let st2 := childBookingIds.foldl
          (fun s cid =>
            updateById s cid
              (fun b =>
                { b with
                  merged_with_booking_id := some parentBookingId
                  is_merged := true
                  status := "merged"
                  trip_id := some tripId }))
          st1
        let st3 :=
          match optimizedRoute with
          | some route => applySequenceUpdates st2 route.waypoints
          | none => applyFallbackSequences st2 (parentBookingId :: childBookingIds)
        .ok st3

/-- The `/api/bookings/merge` handler around the transaction: an error
rolls everything back, leaving storage as it was. -/
def runMerge (dist : Dist) (st : Storage) (parentBookingId : ℕ)
    (childBookingIds : List ℕ) (resp : Option ApiResponse) (tripId : String) :
    Storage × Option String :=
  match mergeTx dist st parentBookingId childBookingIds resp tripId with
  | .ok st2 => (st2, none)
  | .error e => (st, some e)

/-- The `/api/bookings/:id/unmerge` handler (trip-merge-routes.ts lines
828–923).  `now` and `username` model `new Date()` and `req.user?.username
|| 'system'`.  Returns the resulting storage and an error message when the
handler responded with a non-success status. -/
def runUnmerge (st : Storage) (bookingId : ℕ) (now : ℤ) (username : String) :
    Storage × Option String :=
  match lookup st bookingId with
  | none => (st, some ("Booking with ID " ++ toString bookingId ++ " not found"))
  | some bookingToUnmerge =>
    match bookingToUnmerge.parent_booking_id with
    | none =>
      (st, some ("Booking with ID " ++ toString bookingId ++ " is not part of a merged trip"))
    | some parentBookingId =>
      if !bookingToUnmerge.is_merged then
        (st, some ("Booking with ID " ++ toString bookingId ++ " is not part of a merged trip"))
      else
        let st1 := updateById st bookingId
          (fun b =>
            { b with
              is_merged := false
              parent_booking_id := none
              trip_id := none
              status := if bookingToUnmerge.status = "assigned" then "approved"
                        else bookingToUnmerge.status
              route_sequence := none
              route_polyline := none
              updated_at := now
              last_modified_by := username
              modification_notes :=
                some ("Unmerged from trip with parent booking ID " ++ toString parentBookingId) })
        let childCount :=
          (st1.filter (fun b => b.parent_booking_id = some parentBookingId && b.is_merged)).length
        if childCount = 0 then
          (updateById st1 parentBookingId
            (fun b =>
              { b with
                is_parent_booking := false
                trip_id := none
                route_polyline := none
                updated_at := now
                last_modified_by := username
                modification_notes := some ("All child bookings have been unmerged") }), none)
        else (st1, none)

/-! ## Concrete fixtures

Closed inputs used by counterexamples and witnesses.  `dist0` and
`distTaxi` are concrete computable stand-ins for the haversine distance:
`dist0` is used where all coordinates that get compared coincide (where
haversine is 0 as well), `distTaxi` where an actual ordering by distance
is exercised. -/

/-- Constant-zero distance stand-in. -/
def dist0 : Dist := fun _ _ => 0

/-- Taxicab distance stand-in (computable, respects "farther apart means
larger"). -/
def distTaxi : Dist := fun a b => jsAbs (a.lat - b.lat) + jsAbs (a.lng - b.lng)

/-- The `DEFAULT_CONFIG` values of config-service.ts. -/
def cfgDefault : MergeConfig :=
  { pickupDistanceKm := 7
    dropoffDistanceKm := 7
    sameZoneRequired := true
    pickupTimeWindowMinutes := 15
    dropoffTimeWindowMinutes := 15
    maxPickupGapMinutes := 15
    maxTripDurationMinutes := 120
    sameVehicleTypeRequired := true
    sameBookingTypeRequired := true
    samePriorityRequired := true
    routeDeviationToleranceKm := 3 }

/-- A neutral standalone booking all fixtures are variations of. -/
def baseBooking : Booking :=
  { id := 0
    status := "approved"
    booking_type := "passenger"
    priority := "Normal"
    pickup_location := { coordinates := { lat := 25, lng := 55 }, zone := some ("Z") }
    dropoff_location := { coordinates := { lat := 25, lng := 55 }, zone := some ("Z") }
    pickup_time := 0
    dropoff_time := none
    passenger_count := some 1
    vehicle_type := none
    vehicle_id := none
    assigned_vehicle_id := none
    is_merged := false
    has_merged_trips := false
    is_parent_booking := false
    merged_with_booking_id := none
    parent_booking_id := none
    merged_booking_ids := none
    trip_id := none
    pickup_sequence := none
    dropoff_sequence := none
    route_sequence := none
    route_polyline := none
    optimized_route := none
    modification_notes := none
    last_modified_by := "system"
    updated_at := 0
    estimated_distance := 10
    estimated_duration := 30
    reference_no := "REF0" }

/-- No vehicles known to storage. -/
def noVehicles : ℕ → Option Vehicle := fun _ => none

/-- No child bookings known to storage. -/
def noChildren : ℕ → List Booking := fun _ => []

/-- Fixture for C1: a standalone parent candidate. -/
def mergeParentFix : Booking :=
  { baseBooking with id := 1 }

/-- Fixture for C1: a standalone child candidate. -/
def mergeChildFix : Booking :=
  { baseBooking with id := 2 }

/-- Storage holding the two standalone bookings 1 and 2. -/
def stMergeFix : Storage := [mergeParentFix, mergeChildFix]

/-- A Directions response whose order keeps every intermediate waypoint
in place (`waypoint_order` is the identity on the three intermediates of
a two-booking merge). -/
def respIdentityFix : ApiResponse :=
  { waypoint_order := [0, 1, 2]
    legs := [{ distanceMeters := 1000, durationSeconds := 60 },
             { distanceMeters := 2000, durationSeconds := 120 },
             { distanceMeters := 1500, durationSeconds := 90 }]
    overview_polyline := "gPoly" }

/-- A Directions response that puts booking 1's dropoff (waypoint 2)
before either pickup, violating precedence for booking 1. -/
def respViolatingFix : ApiResponse :=
  { waypoint_order := [2, 0, 1]
    legs := [{ distanceMeters := 1000, durationSeconds := 60 },
             { distanceMeters := 2000, durationSeconds := 120 },
             { distanceMeters := 1500, durationSeconds := 90 }]
    overview_polyline := "zzAbc" }

/-- Pickup points for the standalone `optimizeRoute` fixtures. -/
def pickupPointsFix : List BookingPoint :=
  [{ location := { lat := 3, lng := 0 }, bookingId := 1 },
   { location := { lat := 1, lng := 0 }, bookingId := 2 }]

/-- Dropoff points for the standalone `optimizeRoute` fixtures. -/
def dropoffPointsFix : List BookingPoint :=
  [{ location := { lat := 10, lng := 0 }, bookingId := 1 },
   { location := { lat := 12, lng := 0 }, bookingId := 2 }]

/-- Start location for the standalone `optimizeRoute` fixtures. -/
def startLocationFix : Coord := { lat := 0, lng := 0 }

/-- Fixture for C6: a fully compatible candidate that is already merged. -/
def mergedCandidateFix : Booking :=
  { baseBooking with id := 11, is_merged := true }

/-- Fixture base request for C6. -/
def evalBaseFix : Booking :=
  { baseBooking with id := 10 }

/-- Fixture for C5: the parent of a one-child merged trip, carrying the
aggregate flags the merge endpoint sets. -/
def unmergeParentFix : Booking :=
  { baseBooking with
      id := 1
      status := "confirmed"
      has_merged_trips := true
      merged_booking_ids := some (["2"])
      trip_id := some ("TRIP_A")
      optimized_route := some
        { waypoints := [], waypointOrder := [], distance := 3, duration := 4,
          polyline := "pl" } }

/-- Fixture for C5: the sole merged child of `unmergeParentFix`. -/
def unmergeChildFix : Booking :=
  { baseBooking with
      id := 2
      status := "assigned"
      is_merged := true
      parent_booking_id := some 1
      merged_with_booking_id := some 1
      trip_id := some ("TRIP_A")
      route_sequence := some 0
      route_polyline := some ("cpl")
      pickup_sequence := some 0
      dropoff_sequence := some 3 }

/-- Storage for the C5 unmerge scenario. -/
def stUnmergeFix : Storage := [unmergeParentFix, unmergeChildFix]

/-- Fixture for C8: an active parent trip compatible with `baseBooking`. -/
def tripFix : Booking :=
  { baseBooking with
      id := 20
      status := "confirmed"
      has_merged_trips := true
      reference_no := "TRIPREF" }

/-- Fixture for C8: an approved request (code compares against the
capitalised literal). -/
def approvedBookingFix : Booking :=
  { baseBooking with id := 21, status := "Approved" }

/-- Fixture for C8: a request that is not in approved status. -/
def pendingBookingFix : Booking :=
  { baseBooking with id := 22, status := "pending" }

/-! ## Claim theorems -/

/-- `jsAbs` is the usual absolute value. -/
theorem jsAbs_eq_abs (q : ℚ) : jsAbs q = |q| := by
  unfold jsAbs
  split_ifs with h
  · exact (abs_of_neg h).symm
  · exact (abs_of_nonneg (not_lt.mp h)).symm

/-- C1: the claim says every completed merge leaves every member with
pickup_sequence < dropoff_sequence, including when the optimizer's order
is accepted.  The code violates this on the accepted-order path: the last
dropoff is the Directions `destination` and is absent from
`waypoint_order`, so with the identity order the merge of bookings 1 and 2
completes successfully yet leaves booking 2 with pickup_sequence 1 and
dropoff_sequence −1 (its initial `-1` is never overwritten), and
1 < −1 is false. -/
theorem c1_accepted_order_violates_precedence :
    (runMerge dist0 stMergeFix 1 [2] (some respIdentityFix) "TRIP_T").2 = none ∧
    (∀ b ∈ (runMerge dist0 stMergeFix 1 [2] (some respIdentityFix) "TRIP_T").1,
      b.id = 2 → b.pickup_sequence = some 1 ∧ b.dropoff_sequence = some (-1)) ∧
    ¬ ((1 : ℤ) < -1) := by
  decide

/-- C5: at the concrete one-child trip, unmerging the sole child clears
the child's merge state (and reverts its "assigned" status to
"approved"), and clears the parent's trip id — but the parent keeps
`has_merged_trips = true` and its `optimized_route` payload, because the
code clears `is_parent_booking` and `route_polyline` instead, contrary
to the claim. -/
theorem c5_unmerge_leaves_parent_aggregate_flag :
    (runUnmerge stUnmergeFix 2 99 "system").2 = none ∧
    (∀ b ∈ (runUnmerge stUnmergeFix 2 99 "system").1, b.id = 2 →
      b.is_merged = false ∧ b.parent_booking_id = none ∧ b.trip_id = none ∧
      b.status = "approved" ∧ b.route_sequence = none ∧ b.route_polyline = none) ∧
    (∀ b ∈ (runUnmerge stUnmergeFix 2 99 "system").1, b.id = 1 →
      b.has_merged_trips = true ∧ b.optimized_route = unmergeParentFix.optimized_route ∧
      b.is_parent_booking = false ∧ b.trip_id = none ∧ b.route_polyline = none) := by
  decide

/-- C6 counterexample: the claimed check order includes an
"already-merged" check before the proximity checks, which would make any
merged candidate ineligible.  But `checkMergeEligibility` performs no
such check: a fully compatible candidate with `is_merged = true` passes
every guard and is returned as eligible. -/
theorem c6_counterexample_merged_candidate_eligible :
    mergedCandidateFix.is_merged = true ∧
    evalCandidate dist0 cfgDefault noVehicles evalBaseFix mergedCandidateFix = none ∧
    checkMergeEligibility dist0 cfgDefault noVehicles evalBaseFix [mergedCandidateFix]
      = [mergedCandidateFix] := by
  with_unfolding_all decide

/-- C9 counterexample: on a response whose order violates precedence the
repair heuristic is used, yet the returned polyline is the optimizer's
encoded polyline ("zzAbc"), not the empty string the claim requires. -/
theorem c9_counterexample_repair_keeps_polyline :
    requiresAdjustment (buildWaypoints pickupPointsFix dropoffPointsFix)
      respViolatingFix.waypoint_order = true ∧
    (optimizeRoute distTaxi pickupPointsFix dropoffPointsFix startLocationFix
        (some respViolatingFix)).map (fun r => r.waypoints)
      = some (repairWaypoints distTaxi startLocationFix
          (buildWaypoints pickupPointsFix dropoffPointsFix)) ∧
    (optimizeRoute distTaxi pickupPointsFix dropoffPointsFix startLocationFix
        (some respViolatingFix)).map (fun r => r.polyline) = some ("zzAbc") ∧
    ("zzAbc" : String) ≠ "" := by
  with_unfolding_all decide

/-- C2 counterexample: merging with a missing parent (id 7) fails and
leaves storage unchanged, but the error message is the fixed string
"Parent booking not found", which does not contain the digit of the
offending id anywhere — the error does not name the offending booking. -/
theorem c2_counterexample_parent_error_has_no_id :
    runMerge dist0 [] 7 [2] none "T" = ([], some ("Parent booking not found")) ∧
    ∀ l1 l2 : List Char, ("Parent booking not found").data ≠ l1 ++ '7' :: l2 := by
  refine ⟨by decide, ?_⟩
  intro l1 l2 h
  have h7 : '7' ∈ ("Parent booking not found").data := by
    rw [h]
    exact List.mem_append_right l1 (List.mem_cons_self _ _)
  exact absurd h7 (by decide)

/-- C7: batch eligibility is a pure function of its inputs (hence
deterministic); the eligible output is an order-preserving subsequence of
the candidate list; and no returned candidate shares the base request's
id, so a candidate equal to the base is never returned. -/
theorem c7_batch_eligibility_subsequence_and_self_exclusion
    (dist : Dist) (cfg : MergeConfig) (getVehicle : ℕ → Option Vehicle)
    (booking : Booking) (candidates : List Booking) :
    (checkMergeEligibility dist cfg getVehicle booking candidates).Sublist candidates ∧
    ∀ c ∈ checkMergeEligibility dist cfg getVehicle booking candidates,
      c.id ≠ booking.id := by
  constructor
  · exact List.filter_sublist _
  · intro c hc hid
    have hdec := List.of_mem_filter hc
    have h0 : evalCandidate dist cfg getVehicle booking c = none := by
      simpa using hdec
    rw [evalCandidate, if_pos hid.symm] at h0
    exact Option.noConfusion h0

/-- C10: `calculateRouteWithStops` always returns distance 0 and
duration 0; consequently the maximum-trip-duration check inside automatic
eligibility always passes (for a nonnegative configured limit), and the
route-deviation check accepts exactly when the base request's direct
pickup→dropoff distance is at most the configured tolerance. -/
theorem c10_route_stub_and_derived_checks (α : Type) (dist : Dist)
    (cfg : MergeConfig) (booking candidate : Booking)
    (hdur : 0 ≤ cfg.maxTripDurationMinutes)
    (hdist : 0 ≤ dist booking.pickup_location.coordinates booking.dropoff_location.coordinates) :
    (∀ (origin : α) (destination : Option α) (stops : List α),
      (calculateRouteWithStops origin destination stops).distance = 0 ∧
      (calculateRouteWithStops origin destination stops).duration = 0) ∧
    isDurationWithinLimit cfg (mergedRouteOf booking candidate) = true ∧
    (isRouteDeviationAllowed cfg (originalRouteOf dist booking)
        (mergedRouteOf booking candidate) = true ↔
      dist booking.pickup_location.coordinates booking.dropoff_location.coordinates
        ≤ cfg.routeDeviationToleranceKm) := by
  refine ⟨fun o d s => ⟨rfl, rfl⟩, ?_, ?_⟩
  · simp only [isDurationWithinLimit, mergedRouteOf, calculateRouteWithStops,
      decide_eq_true_eq]
    have h60 : (0 : ℚ) ≤ 60 * 1000 := by norm_num
    calc (0 : ℚ) ≤ cfg.maxTripDurationMinutes * (60 * 1000) :=
          mul_nonneg hdur h60
      _ = cfg.maxTripDurationMinutes * 60 * 1000 := by ring
  · simp only [isRouteDeviationAllowed, originalRouteOf, mergedRouteOf,
      calculateRouteWithStops, decide_eq_true_eq]
    rw [jsAbs_eq_abs, zero_sub, abs_neg, abs_of_nonneg hdist]

/-- C10 witness: the derived checks instantiated at the default
configuration and the taxicab stand-in distance on `baseBooking`. -/
theorem c10_witness :
    isDurationWithinLimit cfgDefault (mergedRouteOf baseBooking mergeChildFix) = true ∧
    (isRouteDeviationAllowed cfgDefault (originalRouteOf distTaxi baseBooking)
        (mergedRouteOf baseBooking mergeChildFix) = true ↔
      distTaxi baseBooking.pickup_location.coordinates baseBooking.dropoff_location.coordinates
        ≤ cfgDefault.routeDeviationToleranceKm) :=
  (c10_route_stub_and_derived_checks Unit distTaxi cfgDefault baseBooking mergeChildFix
    (by decide) (by with_unfolding_all decide)).2

/-- C6 (amended): `checkMergeEligibility` evaluates one candidate as the
first failing check of the fixed order self-exclusion, pickup proximity,
dropoff proximity, time compatibility, type compatibility, priority
compatibility, vehicle compatibility (only when a vehicle is known for
the candidate), route deviation, pickup gap, trip duration, zone
restriction — short-circuiting at the first failure.  There is no
already-merged check inside the evaluator, and time compatibility runs
before (not after) type and priority compatibility. -/
theorem c6_amended_evaluator_is_first_failure (dist : Dist) (cfg : MergeConfig)
    (getVehicle : ℕ → Option Vehicle) (booking candidate : Booking) :
    evalCandidate dist cfg getVehicle booking candidate =
      serviceCheckOrder.find?
        (fun c => !checkPasses dist cfg getVehicle booking candidate c) := by
  by_cases h1 : booking.id = candidate.id
  · simp [evalCandidate, checkPasses, serviceCheckOrder, h1]
  by_cases h2 : isPickupNearby dist cfg booking.pickup_location candidate.pickup_location = true
  swap
  · simp [evalCandidate, checkPasses, serviceCheckOrder, h1, h2]
  by_cases h3 : isDropoffNearby dist cfg booking.dropoff_location candidate.dropoff_location = true
  swap
  · simp [evalCandidate, checkPasses, serviceCheckOrder, h1, h2, h3]
  by_cases h4 : isTimeCompatible cfg (timePairOf booking) (timePairOf candidate) = true
  swap
  · simp [evalCandidate, checkPasses, serviceCheckOrder, h1, h2, h3, h4]
  by_cases h5 : isBookingTypeCompatible cfg [booking, candidate] = true
  swap
  · simp [evalCandidate, checkPasses, serviceCheckOrder, h1, h2, h3, h4, h5]
  by_cases h6 : isPriorityMatchSafe cfg [booking, candidate] = true
  swap
  · simp [evalCandidate, checkPasses, serviceCheckOrder, h1, h2, h3, h4, h5, h6]
  cases hv : candidate.vehicle_id.bind getVehicle with
  | none =>
    by_cases h8 : isRouteDeviationAllowed cfg (originalRouteOf dist booking)
        (mergedRouteOf booking candidate) = true
    swap
    · simp [evalCandidate, checkPasses, serviceCheckOrder, h1, h2, h3, h4, h5, h6, hv, h8]
    by_cases h9 : isPickupGapAcceptable cfg [booking, candidate] = true
    swap
    · simp [evalCandidate, checkPasses, serviceCheckOrder, h1, h2, h3, h4, h5, h6, hv, h8, h9]
    by_cases h10 : isDurationWithinLimit cfg (mergedRouteOf booking candidate) = true
    swap
    · simp [evalCandidate, checkPasses, serviceCheckOrder,
        h1, h2, h3, h4, h5, h6, hv, h8, h9, h10]
    simp [evalCandidate, checkPasses, serviceCheckOrder, isZoneAllowed,
      h1, h2, h3, h4, h5, h6, hv, h8, h9, h10]
  | some v =>
    by_cases h7 : isVehicleCompatible cfg v [booking, candidate] = true
    swap
    · simp [evalCandidate, checkPasses, serviceCheckOrder, h1, h2, h3, h4, h5, h6, hv, h7]
    by_cases h8 : isRouteDeviationAllowed cfg (originalRouteOf dist booking)
        (mergedRouteOf booking candidate) = true
    swap
    · simp [evalCandidate, checkPasses, serviceCheckOrder, h1, h2, h3, h4, h5, h6, hv, h7, h8]
    by_cases h9 : isPickupGapAcceptable cfg [booking, candidate] = true
    swap
    · simp [evalCandidate, checkPasses, serviceCheckOrder,
        h1, h2, h3, h4, h5, h6, hv, h7, h8, h9]
    by_cases h10 : isDurationWithinLimit cfg (mergedRouteOf booking candidate) = true
    swap
    · simp [evalCandidate, checkPasses, serviceCheckOrder,
        h1, h2, h3, h4, h5, h6, hv, h7, h8, h9, h10]
    simp [evalCandidate, checkPasses, serviceCheckOrder, isZoneAllowed,
      h1, h2, h3, h4, h5, h6, hv, h7, h8, h9, h10]

/-- C9 (amended): every non-null `optimizeRoute` result — produced via the
repair heuristic just as via the accepted order — carries the optimizer's
encoded overview polyline, not the empty string. -/
theorem c9_amended_polyline_is_optimizer_polyline (dist : Dist)
    (pickupPoints dropoffPoints : List BookingPoint) (startLocation : Coord)
    (r : ApiResponse) (res : OptimizedRoute)
    (h : optimizeRoute dist pickupPoints dropoffPoints startLocation (some r) = some res) :
    res.polyline = r.overview_polyline := by
  simp only [optimizeRoute] at h
  split at h
  · exact Option.noConfusion h
  · split at h
    · exact Option.noConfusion h
    · split at h
      · exact Option.noConfusion h
      · split at h
        · cases h
          rfl
        · cases h
          rfl

/-- C9 witness: the amended statement applied on the precedence-violating
fixture (which takes the repair path). -/
theorem c9_witness_polyline :
    ∃ res, optimizeRoute distTaxi pickupPointsFix dropoffPointsFix startLocationFix
        (some respViolatingFix) = some res ∧
      res.polyline = respViolatingFix.overview_polyline := by
  obtain ⟨res, hres⟩ :
      ∃ res, optimizeRoute distTaxi pickupPointsFix dropoffPointsFix startLocationFix
        (some respViolatingFix) = some res :=
    ⟨_, by with_unfolding_all rfl⟩
  exact ⟨res, hres,
    c9_amended_polyline_is_optimizer_polyline distTaxi pickupPointsFix dropoffPointsFix
      startLocationFix respViolatingFix res hres⟩

/-- The id reported by `firstBadChild` is one of the scanned child ids. -/
theorem firstBadChild_id_mem (st : Storage) (cs : List ℕ) (issue : ChildIssue)
    (h : firstBadChild st cs = some issue) : childIssueId issue ∈ cs := by
  induction cs with
  | nil => exact Option.noConfusion h
  | cons cid rest ih =>
    rw [firstBadChild] at h
    cases hlk : lookup st cid with
    | none =>
      simp only [hlk] at h
      cases h
      exact List.mem_cons_self _ _
    | some cb =>
      simp only [hlk] at h
      by_cases hm : cb.is_merged
      · rw [if_pos hm] at h
        cases h
        exact List.mem_cons_self _ _
      · rw [if_neg hm] at h
        exact List.mem_cons_of_mem _ (ih h)

/-- C2 (amended): every failed merge precondition aborts the transaction
with storage exactly as it was.  A missing parent and a merged parent
produce fixed messages that identify the parent role but do not name its
id; a missing or already-merged child produces a message that does name
the offending child's id (the first offender in list order). -/
theorem c2_amended_merge_failure_behaviour (dist : Dist) (st : Storage)
    (p : ℕ) (cs : List ℕ) (resp : Option ApiResponse) (tripId : String) :
    (lookup st p = none →
      runMerge dist st p cs resp tripId = (st, some ("Parent booking not found"))) ∧
    (∀ pb, lookup st p = some pb → pb.is_merged = true →
      runMerge dist st p cs resp tripId
        = (st, some ("Cannot use a merged booking as a parent"))) ∧
    (∀ pb issue, lookup st p = some pb → pb.is_merged = false →
      firstBadChild st cs = some issue →
      runMerge dist st p cs resp tripId = (st, some (childIssueMessage issue)) ∧
      childIssueId issue ∈ cs ∧
      ∃ tail, childIssueMessage issue
        = "Child booking with id " ++ toString (childIssueId issue) ++ tail) ∧
    (∀ msg, (runMerge dist st p cs resp tripId).2 = some msg →
      (runMerge dist st p cs resp tripId).1 = st) := by
  refine ⟨?_, ?_, ?_, ?_⟩
  · intro hp
    rw [runMerge, mergeTx, hp]
  · intro pb hp hm
    rw [runMerge, mergeTx, hp]
    simp only [hm, if_true]
  · intro pb issue hp hm hbad
    refine ⟨?_, firstBadChild_id_mem st cs issue hbad, ?_⟩
    · rw [runMerge, mergeTx, hp]
      simp only [hm, Bool.false_eq_true, if_false, hbad]
    · cases issue with
      | notFound cid => exact ⟨" not found", rfl⟩
      | alreadyMerged cid => exact ⟨" is already merged", rfl⟩
  · intro msg hmsg
    rw [runMerge] at hmsg ⊢
    cases htx : mergeTx dist st p cs resp tripId with
    | ok st2 =>
      rw [htx] at hmsg
      exact Option.noConfusion hmsg
    | error e => rfl

/-- C2 witness: the amended statement applied where bookings 1 and 2
exist unmerged but child 5 does not: the merge fails with a message
naming id 5 and storage is untouched. -/
theorem c2_witness_missing_child :
    runMerge dist0 stMergeFix 1 [5] none "T"
      = (stMergeFix, some ("Child booking with id 5 not found")) ∧ (5 : ℕ) ∈ [5] := by
  obtain ⟨hrun, hmem, -⟩ :=
    (c2_amended_merge_failure_behaviour dist0 stMergeFix 1 [5] none "T").2.2.1
      mergeParentFix (ChildIssue.notFound 5)
      (by with_unfolding_all decide) (by decide) (by decide)
  refine ⟨?_, hmem⟩
  rw [show childIssueMessage (ChildIssue.notFound 5)
    = "Child booking with id 5 not found" from by decide] at hrun
  exact hrun

/-- A fold of row updates keyed by id is a pointwise map over the rows. -/
theorem foldl_updateById_eq_map {ι : Type} (key : ι → ℕ) (f : ι → Booking → Booking)
    (xs : List ι) (s : Storage) :
    xs.foldl (fun st x => updateById st (key x) (f x)) s
      = s.map (fun b => xs.foldl (fun bb x => if bb.id = key x then f x bb else bb) b) := by
  induction xs generalizing s with
  | nil => simp
  | cons a xs ih =>
    simp only [List.foldl_cons]
    rw [ih, updateById, List.map_map]
    rfl

/-- A per-row update chain preserves the row id when each update does. -/
theorem foldl_update_id {ι : Type} (key : ι → ℕ) (f : ι → Booking → Booking)
    (hf : ∀ x b, (f x b).id = b.id) (xs : List ι) (b : Booking) :
    (xs.foldl (fun bb x => if bb.id = key x then f x bb else bb) b).id = b.id := by
  induction xs generalizing b with
  | nil => rfl
  | cons a xs ih =>
    simp only [List.foldl_cons]
    by_cases h : b.id = key a
    · rw [if_pos h, ih]
      rw [hf, h]
    · rw [if_neg h]
      exact ih b

/-- A per-row update chain leaves a row untouched when its id matches no
key. -/
theorem foldl_update_of_notMem {ι : Type} (key : ι → ℕ) (f : ι → Booking → Booking)
    (xs : List ι) (b : Booking) (h : b.id ∉ xs.map key) :
    xs.foldl (fun bb x => if bb.id = key x then f x bb else bb) b = b := by
  induction xs with
  | nil => rfl
  | cons a xs ih =>
    simp only [List.map_cons, List.mem_cons, not_or] at h
    simp only [List.foldl_cons, if_neg h.1]
    exact ih h.2

/-- Replaying the fallback numbering chain on a single row whose id is
the `i`-th member id sets pickup `n + i` and dropoff
`len*2 − (n + i) − 1` (these folds start at `n = 0` in the code). -/
theorem fallback_chain_spec (len : ℕ) (ids : List ℕ) (hnd : ids.Nodup) :
    ∀ (n : ℕ) (b : Booking) (i : ℕ) (hi : i < ids.length), b.id = ids.get ⟨i, hi⟩ →
      ((List.enumFrom n ids).foldl
        (fun bb pair => if bb.id = pair.2 then
          { bb with
              pickup_sequence := some ((pair.1 : ℕ) : ℤ)
              dropoff_sequence := some ((len : ℤ) * 2 - ((pair.1 : ℕ) : ℤ) - 1) }
          else bb) b).pickup_sequence = some ((n + i : ℕ) : ℤ) ∧
      ((List.enumFrom n ids).foldl
        (fun bb pair => if bb.id = pair.2 then
          { bb with
              pickup_sequence := some ((pair.1 : ℕ) : ℤ)
              dropoff_sequence := some ((len : ℤ) * 2 - ((pair.1 : ℕ) : ℤ) - 1) }
          else bb) b).dropoff_sequence = some ((len : ℤ) * 2 - ((n + i : ℕ) : ℤ) - 1) := by
  induction ids with
  | nil =>
    intro n b i hi
    exact absurd hi (by simp)
  | cons a rest ih =>
    intro n b i hi hb
    rw [show List.enumFrom n (a :: rest) = (n, a) :: List.enumFrom (n + 1) rest from rfl]
    simp only [List.foldl_cons]
    cases i with
    | zero =>
      have hba : b.id = a := by simpa using hb
      rw [if_pos hba]
      have hnotin :
          ({ b with
              pickup_sequence := some ((n : ℕ) : ℤ)
              dropoff_sequence := some ((len : ℤ) * 2 - ((n : ℕ) : ℤ) - 1) } : Booking).id
            ∉ (List.enumFrom (n + 1) rest).map Prod.snd := by
        rw [List.enumFrom_map_snd]
        simpa [hba] using (List.nodup_cons.mp hnd).1
      rw [foldl_update_of_notMem Prod.snd _ _ _ hnotin]
      constructor <;> simp
    | succ j =>
      have hrest : b.id = rest.get ⟨j, by simpa using hi⟩ := hb
      have hba : ¬ b.id = a := by
        intro h
        refine (List.nodup_cons.mp hnd).1 ?_
        rw [← h, hrest]
        exact List.get_mem rest j _
      rw [if_neg hba]
      have hspec := ih (List.nodup_cons.mp hnd).2 (n + 1) b j (by simpa using hi) hrest
      refine ⟨?_, ?_⟩
      · rw [hspec.1]
        congr 1
        omega
      · rw [hspec.2]
        congr 2
        push_cast
        ring

/-- `optimizeRoute` with no usable Directions response returns null. -/
theorem optimizeRoute_resp_none (dist : Dist) (pickupPoints dropoffPoints : List BookingPoint)
    (startLocation : Coord) :
    optimizeRoute dist pickupPoints dropoffPoints startLocation none = none := by
  simp only [optimizeRoute]
  split
  · rfl
  · cases dropoffPoints.getLast? <;> rfl

/-- The fallback numbering fold written as a pointwise map. -/
theorem applyFallbackSequences_eq_map (st : Storage) (allIds : List ℕ) :
    applyFallbackSequences st allIds
      = st.map (fun b => allIds.enum.foldl
          (fun bb pair => if bb.id = pair.2 then
            { bb with
                pickup_sequence := some ((pair.1 : ℕ) : ℤ)
                dropoff_sequence :=
                  some ((allIds.length : ℤ) * 2 - ((pair.1 : ℕ) : ℤ) - 1) }
            else bb) b) :=
  foldl_updateById_eq_map Prod.snd
    (fun pair b =>
      { b with
          pickup_sequence := some ((pair.1 : ℕ) : ℤ)
          dropoff_sequence := some ((allIds.length : ℤ) * 2 - ((pair.1 : ℕ) : ℤ) - 1) })
    allIds.enum st

/-- The child-booking update loop of the merge transaction written as a
pointwise map. -/
theorem mergeChildFold_eq_map (p : ℕ) (tripId : String) (cs : List ℕ) (st : Storage) :
    cs.foldl
      (fun s cid =>
        updateById s cid
          (fun b =>
            { b with
                merged_with_booking_id := some p
                is_merged := true
                status := "merged"
                trip_id := some tripId }))
      st
      = st.map (fun b => cs.foldl
          (fun bb cid => if bb.id = cid then
            { bb with
                merged_with_booking_id := some p
                is_merged := true
                status := "merged"
                trip_id := some tripId }
            else bb) b) :=
  foldl_updateById_eq_map (fun x => x)
    (fun _ b =>
      { b with
          merged_with_booking_id := some p
          is_merged := true
          status := "merged"
          trip_id := some tripId })
    cs st

/-- Any row of `applyFallbackSequences S allIds` whose id is the `i`-th
member id carries pickup `i` and dropoff `allIds.length*2 − i − 1`,
whatever rows `S` held. -/
theorem applyFallbackSequences_spec (allIds : List ℕ) (hnd : allIds.Nodup)
    (S : Storage) (i : ℕ) (hi : i < allIds.length) (b : Booking)
    (hb : b ∈ applyFallbackSequences S allIds)
    (hbid : b.id = allIds.get ⟨i, hi⟩) :
    b.pickup_sequence = some ((i : ℕ) : ℤ) ∧
    b.dropoff_sequence = some ((allIds.length : ℤ) * 2 - ((i : ℕ) : ℤ) - 1) := by
  rw [applyFallbackSequences_eq_map] at hb
  obtain ⟨b1, _, hbeq⟩ := List.mem_map.mp hb
  have hid : b.id = b1.id := by
    rw [← hbeq]
    exact foldl_update_id Prod.snd
      (fun pair bb =>
        { bb with
            pickup_sequence := some ((pair.1 : ℕ) : ℤ)
            dropoff_sequence := some ((allIds.length : ℤ) * 2 - ((pair.1 : ℕ) : ℤ) - 1) })
      (fun _ _ => rfl) allIds.enum b1
  have hspec := fallback_chain_spec allIds.length allIds hnd 0 b1 i hi
    (hid.symm.trans hbid)
  rw [← hbeq, show allIds.enum = List.enumFrom 0 allIds from rfl]
  exact ⟨by simpa using hspec.1, by simpa using hspec.2⟩

/-- C4: when route optimization returns null, a completed merge gives
member `i` (0-indexed over parent :: children) pickup_sequence `i` and
dropoff_sequence `length*2 − i − 1`, and this always satisfies
pickup < dropoff. -/
theorem c4_fallback_numbering (dist : Dist) (st : Storage) (p : ℕ) (cs : List ℕ)
    (tripId : String) (pb : Booking) (st2 : Storage)
    (hp : lookup st p = some pb) (hpm : pb.is_merged = false)
    (hbad : firstBadChild st cs = none) (hnd : (p :: cs).Nodup)
    (hrun : mergeTx dist st p cs none tripId = .ok st2) :
    ∀ (i : ℕ) (hi : i < (p :: cs).length), ∀ b ∈ st2, b.id = (p :: cs).get ⟨i, hi⟩ →
      b.pickup_sequence = some ((i : ℕ) : ℤ) ∧
      b.dropoff_sequence = some (((p :: cs).length : ℤ) * 2 - ((i : ℕ) : ℤ) - 1) ∧
      ((i : ℕ) : ℤ) < ((p :: cs).length : ℤ) * 2 - ((i : ℕ) : ℤ) - 1 := by
  simp only [mergeTx, hp, hpm, hbad, optimizeRoute_resp_none, Bool.false_eq_true,
    if_false] at hrun
  injection hrun with hrun
  subst hrun
  intro i hi b hb hbid
  have hseq := applyFallbackSequences_spec (p :: cs) hnd _ i hi b hb hbid
  refine ⟨hseq.1, hseq.2, ?_⟩
  have hlen : i < (p :: cs).length := hi
  omega

/-- The pickup-typed waypoints of `buildWaypoints` are exactly the pickup
points, in order. -/
theorem buildWaypoints_filter_pickup (ps ds : List BookingPoint) :
    (buildWaypoints ps ds).filter (fun w => w.stopType = "pickup")
      = ps.map (fun p =>
          { location := p.location, stopType := "pickup", bookingId := p.bookingId }) := by
  have h1 : (ps.map (fun p =>
      ({ location := p.location, stopType := "pickup", bookingId := p.bookingId } : Waypoint))).filter
        (fun w => w.stopType = "pickup")
      = ps.map (fun p =>
          { location := p.location, stopType := "pickup", bookingId := p.bookingId }) := by
    refine List.filter_eq_self.mpr ?_
    intro w hw
    obtain ⟨p, _, rfl⟩ := List.mem_map.mp hw
    simp
  have h2 : (ds.map (fun p =>
      ({ location := p.location, stopType := "dropoff", bookingId := p.bookingId } : Waypoint))).filter
        (fun w => w.stopType = "pickup") = [] := by
    refine List.filter_eq_nil_iff.mpr ?_
    intro w hw
    obtain ⟨p, _, rfl⟩ := List.mem_map.mp hw
    simp
  rw [buildWaypoints, List.filter_append, h1, h2, List.append_nil]

/-- The dropoff-typed waypoints of `buildWaypoints` are exactly the
dropoff points, in order. -/
theorem buildWaypoints_filter_dropoff (ps ds : List BookingPoint) :
    (buildWaypoints ps ds).filter (fun w => w.stopType = "dropoff")
      = ds.map (fun p =>
          { location := p.location, stopType := "dropoff", bookingId := p.bookingId }) := by
  have h1 : (ps.map (fun p =>
      ({ location := p.location, stopType := "pickup", bookingId := p.bookingId } : Waypoint))).filter
        (fun w => w.stopType = "dropoff") = [] := by
    refine List.filter_eq_nil_iff.mpr ?_
    intro w hw
    obtain ⟨p, _, rfl⟩ := List.mem_map.mp hw
    simp
  have h2 : (ds.map (fun p =>
      ({ location := p.location, stopType := "dropoff", bookingId := p.bookingId } : Waypoint))).filter
        (fun w => w.stopType = "dropoff")
      = ds.map (fun p =>
          { location := p.location, stopType := "dropoff", bookingId := p.bookingId }) := by
    refine List.filter_eq_self.mpr ?_
    intro w hw
    obtain ⟨p, _, rfl⟩ := List.mem_map.mp hw
    simp
  rw [buildWaypoints, List.filter_append, h1, h2, List.nil_append]

/-- Looking up each pickup's dropoff by booking id keeps the pickup
order of the booking ids, provided every id can be found. -/
theorem filterMap_find?_bookingIds (L D : List Waypoint)
    (h : ∀ p ∈ L, p.bookingId ∈ D.map Waypoint.bookingId) :
    (L.filterMap (fun p => D.find? (fun d => d.bookingId = p.bookingId))).map
        Waypoint.bookingId
      = L.map Waypoint.bookingId := by
  induction L with
  | nil => rfl
  | cons p L ih =>
    obtain ⟨d0, hd0D, hd0b⟩ := List.mem_map.mp (h p (List.mem_cons_self _ _))
    have hsome : (D.find? (fun d => d.bookingId = p.bookingId)).isSome := by
      rw [List.find?_isSome]
      exact ⟨d0, hd0D, by simp [hd0b]⟩
    obtain ⟨d, hd⟩ := Option.isSome_iff_exists.mp hsome
    have hdb : d.bookingId = p.bookingId := by
      have hfound := List.find?_some hd
      simpa using hfound
    simp only [List.filterMap_cons, hd, List.map_cons, hdb]
    rw [ih (fun q hq => h q (List.mem_cons_of_mem _ hq))]

/-- In a list of pickup-typed waypoints followed by dropoff-typed
waypoints, every pickup position precedes every dropoff position. -/
theorem append_pickup_before_dropoff (A B : List Waypoint)
    (hA : ∀ w ∈ A, w.stopType = "pickup") (hB : ∀ w ∈ B, w.stopType = "dropoff") :
    ∀ (i j : ℕ) (hi : i < (A ++ B).length) (hj : j < (A ++ B).length),
      ((A ++ B).get ⟨i, hi⟩).stopType = "pickup" →
      ((A ++ B).get ⟨j, hj⟩).stopType = "dropoff" → i < j := by
  intro i j hi hj hpi hdj
  have hiA : i < A.length := by
    by_contra hge
    push_neg at hge
    have hmem : (A ++ B).get ⟨i, hi⟩ ∈ B := by
      rw [List.get_eq_getElem, List.getElem_append_right hge]
      exact List.getElem_mem _
    rw [hB _ hmem] at hpi
    exact absurd hpi (by decide)
  have hjA : A.length ≤ j := by
    by_contra hlt
    push_neg at hlt
    have hmem : (A ++ B).get ⟨j, hj⟩ ∈ A := by
      rw [List.get_eq_getElem, List.getElem_append_left hlt]
      exact List.getElem_mem _
    rw [hA _ hmem] at hdj
    exact absurd hdj (by decide)
  omega

/-- The repaired waypoint list: its pickup part is the distance-sorted
pickups, its dropoff part repeats the pickups' booking ids in the same
order, pickups all precede dropoffs, and every booking id with a pickup
(given matching dropoffs) occurs with both stop kinds. -/
theorem repairWaypoints_spec (dist : Dist) (start : Coord) (wps : List Waypoint)
    (hDperm : ((wps.filter (fun w => w.stopType = "dropoff")).map Waypoint.bookingId).Perm
      ((wps.filter (fun w => w.stopType = "pickup")).map Waypoint.bookingId)) :
    List.Sorted (fun a b => a ≤ b)
      (((repairWaypoints dist start wps).filter (fun w => w.stopType = "pickup")).map
        (fun w => dist start w.location)) ∧
    ((repairWaypoints dist start wps).filter (fun w => w.stopType = "dropoff")).map
        Waypoint.bookingId
      = ((repairWaypoints dist start wps).filter (fun w => w.stopType = "pickup")).map
        Waypoint.bookingId ∧
    (∀ (i j : ℕ) (hi : i < (repairWaypoints dist start wps).length)
        (hj : j < (repairWaypoints dist start wps).length),
      ((repairWaypoints dist start wps).get ⟨i, hi⟩).stopType = "pickup" →
      ((repairWaypoints dist start wps).get ⟨j, hj⟩).stopType = "dropoff" → i < j) ∧
    (∀ bid ∈ (wps.filter (fun w => w.stopType = "pickup")).map Waypoint.bookingId,
      (∃ w ∈ repairWaypoints dist start wps, w.stopType = "pickup" ∧ w.bookingId = bid) ∧
      (∃ w ∈ repairWaypoints dist start wps, w.stopType = "dropoff" ∧ w.bookingId = bid)) := by
  set D := wps.filter (fun w => w.stopType = "dropoff") with hDdef
  set SP := List.insertionSort (fun a b => dist start a.location ≤ dist start b.location)
    (wps.filter (fun w => w.stopType = "pickup")) with hSPdef
  set MD := SP.filterMap (fun p => D.find? (fun d => d.bookingId = p.bookingId)) with hMDdef
  have hrepair : repairWaypoints dist start wps = SP ++ MD := rfl
  have hSPperm : SP.Perm (wps.filter (fun w => w.stopType = "pickup")) := by
    rw [hSPdef]
    exact List.perm_insertionSort _ _
  have hSPmem : ∀ w ∈ SP, w.stopType = "pickup" := by
    intro w hw
    have hwP := hSPperm.mem_iff.mp hw
    simpa using (List.mem_filter.mp hwP).2
  have hMDmem : ∀ w ∈ MD, w.stopType = "dropoff" := by
    intro w hw
    rw [hMDdef] at hw
    obtain ⟨p, _, hfind⟩ := List.mem_filterMap.mp hw
    have hwD := List.mem_of_find?_eq_some hfind
    rw [hDdef] at hwD
    simpa using (List.mem_filter.mp hwD).2
  have hfp : (SP ++ MD).filter (fun w => w.stopType = "pickup") = SP := by
    have e1 : SP.filter (fun w => w.stopType = "pickup") = SP :=
      List.filter_eq_self.mpr (fun w hw => by simp [hSPmem w hw])
    have e2 : MD.filter (fun w => w.stopType = "pickup") = [] :=
      List.filter_eq_nil_iff.mpr (fun w hw => by simp [hMDmem w hw])
    rw [List.filter_append, e1, e2, List.append_nil]
  have hfd : (SP ++ MD).filter (fun w => w.stopType = "dropoff") = MD := by
    have e1 : SP.filter (fun w => w.stopType = "dropoff") = [] :=
      List.filter_eq_nil_iff.mpr (fun w hw => by simp [hSPmem w hw])
    have e2 : MD.filter (fun w => w.stopType = "dropoff") = MD :=
      List.filter_eq_self.mpr (fun w hw => by simp [hMDmem w hw])
    rw [List.filter_append, e1, e2, List.nil_append]
  have hSPids : (SP.map Waypoint.bookingId).Perm
      ((wps.filter (fun w => w.stopType = "pickup")).map Waypoint.bookingId) :=
    hSPperm.map _
  have hMDids : MD.map Waypoint.bookingId = SP.map Waypoint.bookingId := by
    rw [hMDdef]
    refine filterMap_find?_bookingIds SP D ?_
    intro p hp
    have hpP : p.bookingId
        ∈ (wps.filter (fun w => w.stopType = "pickup")).map Waypoint.bookingId :=
      List.mem_map_of_mem _ (hSPperm.mem_iff.mp hp)
    exact hDperm.mem_iff.mpr hpP
  refine ⟨?_, ?_, ?_, ?_⟩
  · rw [hrepair, hfp, hSPdef]
    haveI : IsTotal Waypoint (fun a b => dist start a.location ≤ dist start b.location) :=
      ⟨fun a b => le_total _ _⟩
    haveI : IsTrans Waypoint (fun a b => dist start a.location ≤ dist start b.location) :=
      ⟨fun _ _ _ hab hbc => le_trans hab hbc⟩
    have hsorted := List.sorted_insertionSort
      (fun a b : Waypoint => dist start a.location ≤ dist start b.location)
      (wps.filter (fun w => w.stopType = "pickup"))
    rw [List.Sorted, List.pairwise_map]
    exact hsorted
  · rw [hrepair, hfp, hfd]
    exact hMDids
  · rw [hrepair]
    exact append_pickup_before_dropoff _ _ hSPmem hMDmem
  · intro bid hbid
    constructor
    · obtain ⟨w, hwP, hwbid⟩ := List.mem_map.mp (hSPids.symm.mem_iff.mp hbid)
      refine ⟨w, ?_, hSPmem w hwP, hwbid⟩
      rw [hrepair]
      exact List.mem_append_left _ hwP
    · have hbidMD : bid ∈ MD.map Waypoint.bookingId := by
        rw [hMDids]
        exact hSPids.symm.mem_iff.mp hbid
      obtain ⟨w, hwMD, hwbid⟩ := List.mem_map.mp hbidMD
      refine ⟨w, ?_, hMDmem w hwMD, hwbid⟩
      rw [hrepair]
      exact List.mem_append_right _ hwMD

/-- C3: when the optimizer's order places some booking's dropoff before
its own pickup (`requiresAdjustment`), `optimizeRoute` discards that
order and returns the repaired list: pickups sorted ascending by
distance from the start location, then each booking's dropoff in the
pickups' relative order; in that list every pickup position precedes
every dropoff position and every booking id occurs with both stop
kinds. -/
theorem c3_violating_order_repaired (dist : Dist) (ps ds : List BookingPoint)
    (startLocation : Coord) (resp : ApiResponse)
    (hd : ds ≠ [])
    (hidx : resp.waypoint_order.all
      (fun i => i < (buildWaypoints ps ds).length) = true)
    (hadj : requiresAdjustment (buildWaypoints ps ds) resp.waypoint_order = true)
    (hperm : (ds.map BookingPoint.bookingId).Perm (ps.map BookingPoint.bookingId)) :
    optimizeRoute dist ps ds startLocation (some resp)
      = some
        { waypoints := repairWaypoints dist startLocation (buildWaypoints ps ds)
          waypointOrder :=
            List.range (repairWaypoints dist startLocation (buildWaypoints ps ds)).length
          distance := (resp.legs.map (fun l => l.distanceMeters)).sum / 1000
          duration := (resp.legs.map (fun l => l.durationSeconds)).sum / 60
          polyline := resp.overview_polyline } ∧
    List.Sorted (fun a b => a ≤ b)
      (((repairWaypoints dist startLocation (buildWaypoints ps ds)).filter
          (fun w => w.stopType = "pickup")).map (fun w => dist startLocation w.location)) ∧
    ((repairWaypoints dist startLocation (buildWaypoints ps ds)).filter
        (fun w => w.stopType = "dropoff")).map Waypoint.bookingId
      = ((repairWaypoints dist startLocation (buildWaypoints ps ds)).filter
          (fun w => w.stopType = "pickup")).map Waypoint.bookingId ∧
    (∀ (i j : ℕ)
        (hi : i < (repairWaypoints dist startLocation (buildWaypoints ps ds)).length)
        (hj : j < (repairWaypoints dist startLocation (buildWaypoints ps ds)).length),
      ((repairWaypoints dist startLocation (buildWaypoints ps ds)).get
        ⟨i, hi⟩).stopType = "pickup" →
      ((repairWaypoints dist startLocation (buildWaypoints ps ds)).get
        ⟨j, hj⟩).stopType = "dropoff" → i < j) ∧
    (∀ bid ∈ ps.map BookingPoint.bookingId,
      (∃ w ∈ repairWaypoints dist startLocation (buildWaypoints ps ds),
        w.stopType = "pickup" ∧ w.bookingId = bid) ∧
      (∃ w ∈ repairWaypoints dist startLocation (buildWaypoints ps ds),
        w.stopType = "dropoff" ∧ w.bookingId = bid)) := by
  have hpids : ((buildWaypoints ps ds).filter
        (fun w => w.stopType = "pickup")).map Waypoint.bookingId
      = ps.map BookingPoint.bookingId := by
    rw [buildWaypoints_filter_pickup, List.map_map]
    rfl
  have hdids : ((buildWaypoints ps ds).filter
        (fun w => w.stopType = "dropoff")).map Waypoint.bookingId
      = ds.map BookingPoint.bookingId := by
    rw [buildWaypoints_filter_dropoff, List.map_map]
    rfl
  have hspec := repairWaypoints_spec dist startLocation (buildWaypoints ps ds)
    (by rw [hpids, hdids]; exact hperm)
  refine ⟨?_, hspec.1, hspec.2.1, hspec.2.2.1, ?_⟩
  · have hlen : ¬ (buildWaypoints ps ds).length < 1 := by
      have hpos : 0 < ds.length := List.length_pos.mpr hd
      simp only [buildWaypoints, List.length_append, List.length_map]
      omega
    obtain ⟨x, hx⟩ := Option.isSome_iff_exists.mp (List.getLast?_isSome.mpr hd)
    simp only [optimizeRoute, if_neg hlen, hx, hidx, hadj, Bool.not_true,
      Bool.false_eq_true, if_false, if_true]
  · intro bid hbid
    exact hspec.2.2.2 bid (by rw [hpids]; exact hbid)

/-- C3 witness: the repair theorem applied to the violating fixture
(booking 1's dropoff ordered before its pickup). -/
theorem c3_witness_repair :
    optimizeRoute distTaxi pickupPointsFix dropoffPointsFix startLocationFix
        (some respViolatingFix)
      = some
        { waypoints := repairWaypoints distTaxi startLocationFix
            (buildWaypoints pickupPointsFix dropoffPointsFix)
          waypointOrder := List.range (repairWaypoints distTaxi startLocationFix
            (buildWaypoints pickupPointsFix dropoffPointsFix)).length
          distance := (respViolatingFix.legs.map (fun l => l.distanceMeters)).sum / 1000
          duration := (respViolatingFix.legs.map (fun l => l.durationSeconds)).sum / 60
          polyline := respViolatingFix.overview_polyline } ∧
    List.Sorted (fun a b => a ≤ b)
      (((repairWaypoints distTaxi startLocationFix
          (buildWaypoints pickupPointsFix dropoffPointsFix)).filter
            (fun w => w.stopType = "pickup")).map
        (fun w => distTaxi startLocationFix w.location)) := by
  have h := c3_violating_order_repaired distTaxi pickupPointsFix dropoffPointsFix
    startLocationFix respViolatingFix (by decide) (by decide) (by decide) (by decide)
  exact ⟨h.1, h.2.1⟩

/-- A pushed recommendation's composite score is the spec formula and
passed the ≥ 50 cut. -/
theorem recommendationFor_some (dist : Dist) (cfg : MergeConfig)
    (childrenOf : ℕ → List Booking) (booking trip : Booking) (r : Recommendation)
    (h : recommendationFor dist cfg childrenOf booking trip = some r) :
    r.compatibilityScore = specCompositeScore dist cfg childrenOf booking trip ∧
    50 ≤ r.compatibilityScore := by
  simp only [recommendationFor, Option.ite_none_left_eq_some,
    Option.ite_none_right_eq_some] at h
  obtain ⟨-, -, -, -, -, h50, heq⟩ := h
  injection heq with heq
  subst heq
  refine ⟨?_, h50⟩
  simp only [specCompositeScore]
  congr 1
  ring

/-- C8: recommendations are produced only for requests in approved
status (empty list otherwise, also when the booking is missing); every
returned entry comes from some candidate trip, its composite score is
the spec formula round(0.4·pickup + 0.4·dropoff + 0.2·type) over
max(0, 100 − distanceKm/maxThreshold·100) scores, only scores ≥ 50 are
kept, and the list is sorted descending by score. -/
theorem c8_recommendation_scoring (dist : Dist) (cfg : MergeConfig)
    (childrenOf : ℕ → List Booking) (bk : Option Booking) (activeTrips : List Booking) :
    (bk = none → getMergeRecommendations dist cfg childrenOf bk activeTrips = []) ∧
    (∀ booking, bk = some booking → booking.status ≠ "Approved" →
      getMergeRecommendations dist cfg childrenOf bk activeTrips = []) ∧
    (∀ r ∈ getMergeRecommendations dist cfg childrenOf bk activeTrips,
      ∃ booking, bk = some booking ∧ booking.status = "Approved" ∧
        ∃ t ∈ activeTrips,
          recommendationFor dist cfg childrenOf booking t = some r ∧
          r.compatibilityScore = specCompositeScore dist cfg childrenOf booking t ∧
          50 ≤ r.compatibilityScore) ∧
    List.Sorted scoreGE (getMergeRecommendations dist cfg childrenOf bk activeTrips) := by
  refine ⟨?_, ?_, ?_, ?_⟩
  · intro h
    rw [h]
    rfl
  · intro booking hbk hst
    rw [hbk]
    simp only [getMergeRecommendations]
    rw [if_pos hst]
  · intro r hr
    cases bk with
    | none => exact absurd hr (by simp [getMergeRecommendations])
    | some booking =>
      by_cases hst : booking.status = "Approved"
      · refine ⟨booking, rfl, hst, ?_⟩
        have hred : getMergeRecommendations dist cfg childrenOf (some booking) activeTrips
            = List.insertionSort scoreGE
              (activeTrips.filterMap (recommendationFor dist cfg childrenOf booking)) := by
          simp only [getMergeRecommendations]
          rw [if_neg (fun hne => hne hst)]
        rw [hred] at hr
        have hr2 := (List.perm_insertionSort scoreGE _).mem_iff.mp hr
        obtain ⟨t, ht, hsome⟩ := List.mem_filterMap.mp hr2
        have hsc := recommendationFor_some dist cfg childrenOf booking t r hsome
        exact ⟨t, ht, hsome, hsc.1, hsc.2⟩
      · have hred : getMergeRecommendations dist cfg childrenOf (some booking) activeTrips
            = [] := by
          simp only [getMergeRecommendations]
          rw [if_pos hst]
        rw [hred] at hr
        exact absurd hr (List.not_mem_nil r)
  · cases bk with
    | none => exact List.sorted_nil
    | some booking =>
      by_cases hst : booking.status ≠ "Approved"
      · simp only [getMergeRecommendations]
        rw [if_pos hst]
        exact List.sorted_nil
      · simp only [getMergeRecommendations]
        rw [if_neg hst]
        exact List.sorted_insertionSort scoreGE _

/-- C8 witness: a non-approved request gets no recommendations, and the
approved fixture's recommendation list is sorted descending. -/
theorem c8_witness :
    getMergeRecommendations dist0 cfgDefault noChildren (some pendingBookingFix) [tripFix]
      = [] ∧
    List.Sorted scoreGE
      (getMergeRecommendations dist0 cfgDefault noChildren (some approvedBookingFix)
        [tripFix]) :=
  ⟨(c8_recommendation_scoring dist0 cfgDefault noChildren (some pendingBookingFix)
      [tripFix]).2.1 pendingBookingFix rfl (by decide),
   (c8_recommendation_scoring dist0 cfgDefault noChildren (some approvedBookingFix)
      [tripFix]).2.2.2⟩

/-- C4 witness: the fallback numbering applied to the concrete
two-booking merge with no optimizer response: member 1 (booking 2) gets
pickup 1 and dropoff 2·2 − 1 − 1 = 2. -/
theorem c4_witness :
    ∃ st2, mergeTx dist0 stMergeFix 1 [2] none "T" = Except.ok st2 ∧
      ∀ b ∈ st2, b.id = 2 →
        b.pickup_sequence = some 1 ∧ b.dropoff_sequence = some 2 := by
  obtain ⟨st2, hrun⟩ : ∃ st2, mergeTx dist0 stMergeFix 1 [2] none "T" = Except.ok st2 :=
    ⟨_, by with_unfolding_all rfl⟩
  refine ⟨st2, hrun, ?_⟩
  intro b hb hbid
  have h := c4_fallback_numbering dist0 stMergeFix 1 [2] "T" mergeParentFix st2
    (by with_unfolding_all decide) (by decide) (by decide) (by decide) hrun
    1 (by decide) b hb hbid
  refine ⟨by simpa using h.1, ?_⟩
  have h2 := h.2.1
  norm_num at h2
  exact h2

/-- C7 witness: batch evaluation over a two-candidate list containing
the base itself is a subsequence of the candidates and excludes the
base's id. -/
theorem c7_witness :
    (checkMergeEligibility dist0 cfgDefault noVehicles evalBaseFix
        [evalBaseFix, mergedCandidateFix]).Sublist [evalBaseFix, mergedCandidateFix] ∧
    ∀ c ∈ checkMergeEligibility dist0 cfgDefault noVehicles evalBaseFix
        [evalBaseFix, mergedCandidateFix], c.id ≠ evalBaseFix.id :=
  c7_batch_eligibility_subsequence_and_self_exclusion dist0 cfgDefault noVehicles
    evalBaseFix [evalBaseFix, mergedCandidateFix]

end TripexlMerge
